import Mathlib

/-!
Shallow embedding of the Cloudflare Worker caching reverse proxy
(`src/cloudflare_cache.js`).  JavaScript strings are Lean `String`s
(all strings handled by the worker are ASCII), byte buffers are
`List Nat`, machine numbers (`Date.getTime()`, TTLs) are `Int`, and
the worker's effects (R2 `get`/`put`/`delete` scheduling, origin
fetches) are recorded explicitly in a result record.
-/

namespace CF

/-! ### JavaScript string primitives -/

/-- JS `String.prototype.toLowerCase` restricted to ASCII (all header
names and directive values in this worker are ASCII). -/
def jsToLower (s : String) : String :=
  ⟨s.data.map Char.toLower⟩

/-- JS `String.prototype.startsWith`. -/
def jsStartsWith (s p : String) : Bool :=
  p.data.isPrefixOf s.data

/-- Occurrence of `needle` inside `hay` (character lists). -/
def containsSub (hay needle : List Char) : Bool :=
  match hay with
  | [] => needle.isEmpty
  | _ :: t => needle.isPrefixOf hay || containsSub t needle

/-- JS `String.prototype.includes` (for the non-empty needles used by
the worker: `no-cache`, `no-store`, `max-age=`). -/
def jsIncludes (s needle : String) : Bool :=
  containsSub s.data needle.data

/-- JS `String.prototype.split(sep)` for a one-character separator,
producing every part. -/
def jsSplitAux (sep : Char) : List Char → List Char → List (List Char)
  | [], acc => [acc.reverse]
  | c :: t, acc =>
    if c = sep then acc.reverse :: jsSplitAux sep t []
    else jsSplitAux sep t (c :: acc)

def jsSplit (s : String) (sep : Char) : List String :=
  (jsSplitAux sep s.data []).map (fun cs => ⟨cs⟩)

def digitsToNat (ds : List Char) : Nat :=
  ds.foldl (fun a c => a * 10 + (c.toNat - 48)) 0

def isHexDigitChar (c : Char) : Bool :=
  c.isDigit || ('a' ≤ c && c ≤ 'f') || ('A' ≤ c && c ≤ 'F')

def hexDigitVal (c : Char) : Nat :=
  if c.isDigit then c.toNat - 48
  else if 'a' ≤ c && c ≤ 'f' then c.toNat - 87
  else if 'A' ≤ c && c ≤ 'F' then c.toNat - 55
  else 0

def hexToNat (ds : List Char) : Nat :=
  ds.foldl (fun a c => a * 16 + hexDigitVal c) 0

/-- JS `parseInt(s)` (no radix argument): skip leading whitespace, read an
optional sign, then either a `0x`/`0X` hexadecimal literal or a leading
run of decimal digits; `none` models `NaN`. -/
def jsParseInt (s : String) : Option Int :=
  let cs := s.data.dropWhile Char.isWhitespace
  let signed : Int × List Char :=
    match cs with
    | '-' :: t => (-1, t)
    | '+' :: t => (1, t)
    | _ => (1, cs)
  match signed.2 with
  | '0' :: 'x' :: t =>
    let hs := t.takeWhile isHexDigitChar
    if hs.isEmpty then none else some (signed.1 * (hexToNat hs : Int))
  | '0' :: 'X' :: t =>
    let hs := t.takeWhile isHexDigitChar
    if hs.isEmpty then none else some (signed.1 * (hexToNat hs : Int))
  | rest =>
    let ds := rest.takeWhile Char.isDigit
    if ds.isEmpty then none else some (signed.1 * (digitsToNat ds : Int))

/-- Hex rendering of one byte: `b.toString(16).padStart(2, '0')`. -/
def hexChar (n : Nat) : Char :=
  if n < 10 then Char.ofNat (48 + n) else Char.ofNat (87 + n)

def bytesToHex (bs : List Nat) : String :=
  ⟨bs.foldr (fun b acc => hexChar (b / 16 % 16) :: hexChar (b % 16) :: acc) []⟩

/-! ### Headers

A JS `Headers` object is modelled as an association list of
(name, value) pairs; `get` is case-insensitive on names and `set`
replaces any existing entry.  We assume no duplicate header names (true
of every header map the worker builds), so `get` returning the first
match agrees with the `Headers` behaviour of joining duplicates. -/

abbrev HeadersList := List (String × String)

def hNameEq (a b : String) : Bool := jsToLower a == jsToLower b

/-- `headers.get(name)` — case-insensitive lookup. -/
def hget (hs : HeadersList) (name : String) : Option String :=
  (List.find? (fun p => hNameEq p.1 name) hs).map (fun p => p.2)

/-- `headers.set(name, value)` — replace any entry with this name. -/
def hset (hs : HeadersList) (name value : String) : HeadersList :=
  (List.filter (fun p => !hNameEq p.1 name) hs) ++ [(name, value)]

/-- `headers.delete(name)`. -/
def hdelete (hs : HeadersList) (name : String) : HeadersList :=
  List.filter (fun p => !hNameEq p.1 name) hs

/-- `headers.entries()` — JS `Headers` yields lower-cased names (the
iteration order and duplicate-combining are irrelevant here). -/
def headersEntries (hs : HeadersList) : HeadersList :=
  hs.map (fun p => (jsToLower p.1, p.2))

/-! ### Constants (`src/cloudflare_cache.js` lines 2-4) -/

def DEFAULT_CACHE_TTL_SECONDS : Int := 2048000

def CACHE_CONTROL_HEADER : String := "cf-cache-control"

/-! ### Hasher and cache-key builder -/

/-- `generateHash(data)`.  `crypto.subtle.digest('SHA-256', ·)` is an
external platform primitive, modelled by the `digest` parameter (a
fixed function: the Web Crypto digest is deterministic).  All call
sites in the repository pass an `ArrayBuffer`, modelled as
`some bytes`; `none` models a nullish argument.  (The source also
accepts a string, which it UTF-8 encodes before the same emptiness
check; that branch is unreachable from the repository's call sites.) -/
def generateHash (digest : List Nat → List Nat) (data : Option (List Nat)) : String :=
  match data with
  | none => "emptybody"
  | some buffer =>
    if buffer.length = 0 then "emptybody"
    else bytesToHex (digest buffer)

/-- An inbound request.  `url` is `request.url`; `new URL(url).toString()`
is the identity on it (the inbound URL is already normalized).
`body` is the request body bytes (`none` = no body; a clone's
`arrayBuffer()` on a bodyless request yields an empty buffer, which the
source treats the same as empty).  `bodyReadError` records whether
reading the key-derivation clone's body throws. -/
structure JsRequest where
  method : String
  url : String
  pathname : String
  search : String
  headers : HeadersList
  body : Option (List Nat)
  bodyReadError : Bool
deriving Repr

/-- `generateCacheKey(request, requestClone)` (lines 25-50). -/
def generateCacheKey (digest : List Nat → List Nat) (req : JsRequest) : String :=
  let key := req.method ++ ":" ++ req.url
  if req.method == "POST" then
    if req.bodyReadError then key ++ ":bodyHash=readerror"
    else
      match req.body with
      | some bodyBuffer =>
        if bodyBuffer.length > 0 then
          key ++ ":bodyHash=" ++ generateHash digest (some bodyBuffer)
        else key ++ ":bodyHash=emptybody"
      | none => key ++ ":bodyHash=emptybody"
  else key

/-! ### Store, environment, responses, and the effect record -/

/-- The JSON payload persisted for a cache entry (`dataToStore`): the
worker always stores `body` as text, so `object.json()` returns it as a
string (the hit path's re-stringify branch for non-string bodies is
therefore not taken). -/
structure CachedData where
  body : String
  status : Nat
  headers : HeadersList
deriving DecidableEq, Repr

/-- Outcome of `env.API_CACHE_BUCKET.get(key)`:
`absent` = `null`; `failure` = the `get` itself throws;
`found exp data` = an object with `customMetadata?.expiration = exp`
(`none` when the metadata key is missing) whose `object.json()` yields
`data` (`none` when the JSON parse throws).  JSON round-tripping of a
stored `CachedData` is the identity. -/
inductive R2GetResult where
  | absent
  | failure
  | found (exp : Option String) (data : Option CachedData)

/-- The worker environment: `ORIGIN_API_URL` (`none` = unset; `some ""`
is also falsy), the R2 binding (`bucketBound` = the binding is present;
`store` gives `get`'s outcome per key), and the subscription key used
by `handleRequestHeaders`. -/
structure WorkerEnv where
  ORIGIN_API_URL : Option String
  bucketBound : Bool
  store : String → R2GetResult
  subscriptionKey : String

def jsTruthy : Option String → Bool
  | none => false
  | some s => s != ""

/-- A response from the origin `fetch`; `bodyReadError` records whether
`responseToCache.text()` throws. -/
structure OriginResponse where
  status : Nat
  statusText : String
  headers : HeadersList
  body : String
  bodyReadError : Bool
deriving DecidableEq, Repr

/-- The `Request` the worker constructs for the origin. -/
structure OriginRequest where
  url : String
  method : String
  headers : HeadersList
  redirect : String
deriving DecidableEq, Repr

structure JsResponse where
  body : String
  status : Nat
  statusText : String
  headers : HeadersList
deriving DecidableEq, Repr

/-- What one invocation of the worker's `fetch` does: the response it
returns, whether it was served from the cache store, which keys it
`get`s, how many times (and with what request) it contacts the origin,
and which `delete`/`put` operations it schedules via `ctx.waitUntil`. -/
structure FetchResult where
  response : JsResponse
  servedFromCache : Bool
  gets : List String
  originCalls : Nat
  originRequest : Option OriginRequest
  deletes : List String
  putOps : List (String × CachedData × String)
deriving DecidableEq, Repr

/-! ### The expiration check and TTL computation -/

/-- Lines 175-179: `expiration && new Date().getTime() > parseInt(expiration)`.
A missing or empty metadata value is falsy; `parseInt` yielding `NaN`
makes the `>` comparison false. -/
def expiredCheck (now : Int) (exp : Option String) : Bool :=
  match exp with
  | none => false
  | some s =>
    if s = "" then false
    else
      match jsParseInt s with
      | none => false
      | some n => decide (n < now)

/-- The regex `/max-age=(\d+)/` applied to the lower-cased
`Cache-Control` value: first position where `max-age=` is followed by
at least one digit; the capture is the maximal digit run there. -/
def regexMaxAgeDigits : List Char → Option Nat
  | [] => none
  | c :: rest =>
    if List.isPrefixOf "max-age=".data (c :: rest) then
      let ds := ((c :: rest).drop 8).takeWhile Char.isDigit
      if ds.isEmpty then regexMaxAgeDigits rest else some (digitsToNat ds)
    else regexMaxAgeDigits rest

/-- The `else if (cacheControl && cacheControl.includes('max-age='))`
arm of the TTL computation (lines 248-251). -/
def respMaxAge (cacheControl : Option String) : Int :=
  match cacheControl with
  | some cc =>
    if jsIncludes cc "max-age=" then
      match regexMaxAgeDigits cc.data with
      | some n => (n : Int)
      | none => DEFAULT_CACHE_TTL_SECONDS
    else DEFAULT_CACHE_TTL_SECONDS
  | none => DEFAULT_CACHE_TTL_SECONDS

/-- Lines 244-251: the TTL stored with a cached response.
`customTtlHeader` is the raw (not lower-cased) value of the
`cf-cache-control` request header, `cacheControl` the lower-cased
response `Cache-Control` value.  `parseInt(h.split('=')[1]) || DEFAULT`
falls back to the default when the parse yields `NaN` or `0`. -/
def computeTTL (customTtlHeader : Option String) (cacheControl : Option String) : Int :=
  match customTtlHeader with
  | some h =>
    if h != "" && jsStartsWith h "max-age=" then
      match (jsSplit h '=').get? 1 with
      | some part =>
        match jsParseInt part with
        | some n => if n = 0 then DEFAULT_CACHE_TTL_SECONDS else n
        | none => DEFAULT_CACHE_TTL_SECONDS
      | none => DEFAULT_CACHE_TTL_SECONDS
    else respMaxAge cacheControl
  | none => respMaxAge cacheControl

/-- `handleRequestHeaders(env, requestHeaders)` (lines 125-134). -/
def handleRequestHeaders (env : WorkerEnv) (requestHeaders : HeadersList) : HeadersList :=
  let h1 := hset requestHeaders "ocp-apim-subscription-region" "japaneast"
  let h2 := hset h1 "ocp-apim-subscription-key" env.subscriptionKey
  hdelete h2 "host"

/-! ### The orchestrator -/

/-- Steps 2-4 of the handler (lines 207-298): forward to the origin,
evaluate storability, schedule the put, and return the MISS response.
`originResult` is the behaviour of the external origin for this request
(`Except.error e` = the `fetch` throws with message `e`).  `gets` and
`deletes` carry the effects already performed by the lookup phase. -/
def forwardAndMaybeStore (now : Int) (env : WorkerEnv)
    (originResult : Except String OriginResponse) (req : JsRequest)
    (cacheKey : String) (bypassCache forceCache isCacheableMethod : Bool)
    (gets deletes : List String) : FetchResult :=
  let originRequestUrl := env.ORIGIN_API_URL.getD "" ++ req.pathname ++ req.search
  let originRequest : OriginRequest :=
    { url := originRequestUrl, method := req.method,
      headers := handleRequestHeaders env req.headers, redirect := "manual" }
  match originResult with
  | .error e =>
    let response : JsResponse :=
      { body := "Failed to fetch from origin: " ++ e, status := 502,
        statusText := "", headers := [] }
    { response := response,
      servedFromCache := false, gets := gets, originCalls := 1,
      originRequest := some originRequest, deletes := deletes, putOps := [] }
  | .ok originResponse =>
    let cacheControl := (hget originResponse.headers "Cache-Control").map jsToLower
    let pragma := (hget originResponse.headers "Pragma").map jsToLower
    let shouldCache :=
      (isCacheableMethod || forceCache)
      && (decide (200 ≤ originResponse.status) && decide (originResponse.status < 300))
      && (match cacheControl with
          | none => true
          | some cc => !(jsIncludes cc "no-cache") && !(jsIncludes cc "no-store"))
      && (match pragma with
          | none => true
          | some p => !(jsIncludes p "no-cache"))
    let putOps :=
      if shouldCache && !bypassCache then
        if originResponse.bodyReadError then []
        else
          let ttl := computeTTL (hget req.headers CACHE_CONTROL_HEADER) cacheControl
          let dataToStore : CachedData :=
            { body := originResponse.body, status := originResponse.status,
              headers := headersEntries originResponse.headers }
          let expirationTimestamp := now + ttl * 1000
          [(cacheKey, dataToStore, toString expirationTimestamp)]
      else []
    let response : JsResponse :=
      { body := originResponse.body, status := originResponse.status,
        statusText := originResponse.statusText,
        headers := hset (hset originResponse.headers "X-Cache-Status" "MISS")
          "X-Cache-Key" cacheKey }
    { response := response,
      servedFromCache := false, gets := gets, originCalls := 1,
      originRequest := some originRequest, deletes := deletes, putOps := putOps }

/-- The worker's `fetch(request, env, ctx)` (lines 137-299).  `now` is
the value of `new Date().getTime()` for this request and `digest`
models `crypto.subtle.digest('SHA-256', ·)`. -/
def workerFetch (digest : List Nat → List Nat) (now : Int) (env : WorkerEnv)
    (originResult : Except String OriginResponse) (req : JsRequest) : FetchResult :=
  if !(jsTruthy env.ORIGIN_API_URL) then
    let response : JsResponse :=
      { body := "Origin API URL not configured", status := 500,
        statusText := "", headers := [] }
    { response := response,
      servedFromCache := false, gets := [], originCalls := 0, originRequest := none,
      deletes := [], putOps := [] }
  else if !env.bucketBound then
    let response : JsResponse :=
      { body := "R2 Bucket not bound", status := 500,
        statusText := "", headers := [] }
    { response := response,
      servedFromCache := false, gets := [], originCalls := 0, originRequest := none,
      deletes := [], putOps := [] }
  else
    let cacheKey := generateCacheKey digest req
    let bypassCache :=
      (hget req.headers CACHE_CONTROL_HEADER).map jsToLower == some "no-cache"
    let forceCache :=
      (hget req.headers CACHE_CONTROL_HEADER).map jsToLower == some "force-cache"
    let isCacheableMethod := req.method == "GET" || req.method == "POST"
    if !bypassCache && isCacheableMethod then
      match env.store cacheKey with
      | .found exp (some cachedResponseData) =>
        if expiredCheck now exp then
          forwardAndMaybeStore now env originResult req cacheKey
            bypassCache forceCache isCacheableMethod [cacheKey] [cacheKey]
        else
          let response : JsResponse :=
            { body := cachedResponseData.body,
              status := cachedResponseData.status, statusText := "",
              headers := hset (hset cachedResponseData.headers "X-Cache-Status" "HIT")
                "X-Cache-Key" cacheKey }
          { response := response,
            servedFromCache := true, gets := [cacheKey], originCalls := 0,
            originRequest := none, deletes := [], putOps := [] }
      | .found _ none =>
        forwardAndMaybeStore now env originResult req cacheKey
          bypassCache forceCache isCacheableMethod [cacheKey] []
      | .absent =>
        forwardAndMaybeStore now env originResult req cacheKey
          bypassCache forceCache isCacheableMethod [cacheKey] []
      | .failure =>
        forwardAndMaybeStore now env originResult req cacheKey
          bypassCache forceCache isCacheableMethod [cacheKey] []
    else
      forwardAndMaybeStore now env originResult req cacheKey
        bypassCache forceCache isCacheableMethod [] []

/-! ### The specification's TTL-precedence rule, for comparison -/

/-- The request-side `max-age=N` value as the specification's `computeTTL`
contract reads it: defined only when the dedicated header is present and
starts with `max-age=`, giving `parseInt` of the text after the first `=`. -/
def ttlClaimRequestValue (customTtlHeader : Option String) : Option Int :=
  customTtlHeader.bind (fun h =>
    if jsStartsWith h "max-age=" then ((jsSplit h '=').get? 1).bind jsParseInt
    else none)

/-- The fallback the specification prescribes when no positive request-side
value applies: the response `Cache-Control` `max-age=N` if present, else the
default. -/
def ttlClaimFallback (cacheControl : Option String) : Int :=
  match cacheControl.bind (fun cc => regexMaxAgeDigits (jsToLower cc).data) with
  | some m => (m : Int)
  | none => DEFAULT_CACHE_TTL_SECONDS

/-- `computeTTL` as the claim words it: the request-side value wins exactly
when it parses as a positive integer; otherwise the response directive, then
the default. -/
def ttlClaimSpec (customTtlHeader cacheControl : Option String) : Int :=
  match ttlClaimRequestValue customTtlHeader with
  | some n => if 0 < n then n else ttlClaimFallback cacheControl
  | none => ttlClaimFallback cacheControl

/-- The amended TTL rule, matching the source: the request-side header is
consulted exactly when it starts with `max-age=`; the `parseInt` of the text
after its first `=` is used whenever it is a nonzero number (negative values
included), the default replacing `0` and `NaN`; the response `Cache-Control`
is consulted only when the request-side header is absent or does not start
with `max-age=`. -/
def ttlAmended (customTtlHeader cacheControl : Option String) : Int :=
  match customTtlHeader with
  | some h =>
    if jsStartsWith h "max-age=" then
      match ((jsSplit h '=').get? 1).bind jsParseInt with
      | some n => if n = 0 then DEFAULT_CACHE_TTL_SECONDS else n
      | none => DEFAULT_CACHE_TTL_SECONDS
    else respMaxAge cacheControl
  | none => respMaxAge cacheControl

/-! ### Concrete sample data used by the round-trip claim and witnesses -/

/-- A fixed stand-in for the SHA-256 digest in concrete evaluations. -/
def sampleDigest : List Nat → List Nat := fun _ => [171, 205]

def sampleEnv : WorkerEnv :=
  { ORIGIN_API_URL := some "https://origin.example", bucketBound := true,
    store := fun _ => .absent, subscriptionKey := "sk" }

def rtReq : JsRequest :=
  { method := "GET", url := "https://proxy.example/widgets/1",
    pathname := "/widgets/1", search := "",
    headers := [("cf-cache-control", "max-age=60")],
    body := none, bodyReadError := false }

def rtOrigin : OriginResponse :=
  { status := 201, statusText := "Created",
    headers := [("content-type", "text/plain")],
    body := "hello", bodyReadError := false }

def rtKey : String := "GET:https://proxy.example/widgets/1"

def rtEntry : CachedData :=
  { body := "hello", status := 201, headers := [("content-type", "text/plain")] }

/-- `sampleEnv` after the stored put has landed. -/
def rtEnvAfter : WorkerEnv :=
  { sampleEnv with store := fun k =>
      if k = rtKey then .found (some "60000") (some rtEntry) else .absent }

/-- An environment holding an entry for `rtKey` that expired at epoch 10 ms. -/
def wEnvExpired : WorkerEnv :=
  { sampleEnv with store := fun k =>
      if k = rtKey then .found (some "10") (some rtEntry) else .absent }

/-- An environment whose stored entry carries non-numeric expiration metadata. -/
def wEnvBadExp : WorkerEnv :=
  { sampleEnv with store := fun _ => .found (some "abc") (some rtEntry) }

/-- An origin response that forbids caching via `Cache-Control: no-store`. -/
def wRespNoStore : OriginResponse :=
  { status := 200, statusText := "OK",
    headers := [("Cache-Control", "no-store")],
    body := "x", bodyReadError := false }

/-- A POST request with a non-empty body. -/
def wPostReq : JsRequest :=
  { method := "POST", url := "https://proxy.example/search",
    pathname := "/search", search := "",
    headers := [("cf-cache-control", "force-cache")],
    body := some [1, 2], bodyReadError := false }

/-- A POST request with an empty body. -/
def wEmptyPostReq : JsRequest :=
  { wPostReq with body := some [] }

/-- A request carrying the bypass directive. -/
def wBypassReq : JsRequest :=
  { rtReq with headers := [("cf-cache-control", "no-cache")] }

/-- `wEnvExpired` with the expired key removed, the store state a lookup of
the same request would see after the scheduled delete. -/
def wEnvExpiredDel : WorkerEnv :=
  { wEnvExpired with store := fun k =>
      if k = generateCacheKey sampleDigest rtReq then .absent else wEnvExpired.store k }

/-! ## Support lemmas -/

theorem forward_servedFromCache (now : Int) (env : WorkerEnv)
    (o : Except String OriginResponse) (req : JsRequest) (k : String)
    (b f m : Bool) (g d : List String) :
    (forwardAndMaybeStore now env o req k b f m g d).servedFromCache = false := by
  cases o <;> rfl

theorem forward_originCalls (now : Int) (env : WorkerEnv)
    (o : Except String OriginResponse) (req : JsRequest) (k : String)
    (b f m : Bool) (g d : List String) :
    (forwardAndMaybeStore now env o req k b f m g d).originCalls = 1 := by
  cases o <;> rfl

theorem forward_deletes (now : Int) (env : WorkerEnv)
    (o : Except String OriginResponse) (req : JsRequest) (k : String)
    (b f m : Bool) (g d : List String) :
    (forwardAndMaybeStore now env o req k b f m g d).deletes = d := by
  cases o <;> rfl

/-- The response of the forward phase does not depend on the environment nor
on the effects already recorded by the lookup phase. -/
theorem forward_response_env_irrel (now : Int) (env env2 : WorkerEnv)
    (o : Except String OriginResponse) (req : JsRequest)
    (k : String) (b fc m : Bool) (g d g2 d2 : List String) :
    (forwardAndMaybeStore now env2 o req k b fc m g2 d2).response =
      (forwardAndMaybeStore now env o req k b fc m g d).response := by
  cases o <;> rfl

/-- Likewise for the scheduled put operations. -/
theorem forward_putOps_env_irrel (now : Int) (env env2 : WorkerEnv)
    (o : Except String OriginResponse) (req : JsRequest)
    (k : String) (b fc m : Bool) (g d g2 d2 : List String) :
    (forwardAndMaybeStore now env2 o req k b fc m g2 d2).putOps =
      (forwardAndMaybeStore now env o req k b fc m g d).putOps := by
  cases o <;> rfl

theorem hNameEq_symm_false (a b : String) (h : hNameEq a b = false) :
    hNameEq b a = false := by
  unfold hNameEq at *
  cases hb : (jsToLower b == jsToLower a)
  · rfl
  · exfalso
    rw [beq_iff_eq] at hb
    rw [hb] at h
    simp at h

theorem hget_hset_self (hs : HeadersList) (n v : String) :
    hget (hset hs n v) n = some v := by
  induction hs with
  | nil => simp [hget, hset, hNameEq]
  | cons p t ih =>
    by_cases h : hNameEq p.1 n
    · simpa [hget, hset, List.filter_cons, h] using ih
    · simpa [hget, hset, List.filter_cons, List.find?_cons, h] using ih

theorem hget_hset_ne (hs : HeadersList) (n v name : String)
    (hne : hNameEq name n = false) :
    hget (hset hs n v) name = hget hs name := by
  have hnn : hNameEq n name = false := hNameEq_symm_false name n hne
  induction hs with
  | nil => simp [hget, hset, hnn]
  | cons p t ih =>
    by_cases hp : hNameEq p.1 n
    · have hpname : hNameEq p.1 name = false := by
        unfold hNameEq at *
        rw [beq_iff_eq] at hp
        rw [hp]
        exact hnn
      simpa [hget, hset, List.filter_cons, hp, List.find?_cons, hpname] using ih
    · by_cases hpn : hNameEq p.1 name
      · simp [hget, hset, List.filter_cons, hp, List.find?_cons, hpn]
      · simpa [hget, hset, List.filter_cons, hp, List.find?_cons, hpn] using ih

/-- An entry is expired exactly when its metadata is a string whose
`parseInt` value is a number strictly below the current time. -/
theorem expiredCheck_iff (now : Int) (e : Option String) :
    expiredCheck now e = true ↔
      ∃ s n, e = some s ∧ jsParseInt s = some n ∧ n < now := by
  cases e with
  | none => simp [expiredCheck]
  | some s =>
    by_cases hs : s = ""
    · subst hs
      have hp : jsParseInt "" = none := rfl
      simp [expiredCheck, hp]
    · unfold expiredCheck
      dsimp only
      rw [if_neg hs]
      cases hp : jsParseInt s with
      | none => simp [hp]
      | some n => simp [hp]

/-! ## The claims -/

/-- Claim C1: for every request handled past the configuration checks,
exactly one of the two outcomes occurs — the response is served from the
cache store with the origin never contacted, or the request is forwarded
to the origin exactly once; never both, never a double forward. -/
theorem claim1_exactly_one_of_hit_or_forward (digest : List Nat → List Nat)
    (now : Int) (env : WorkerEnv) (o : Except String OriginResponse)
    (req : JsRequest)
    (h1 : jsTruthy env.ORIGIN_API_URL = true) (h2 : env.bucketBound = true) :
    ((workerFetch digest now env o req).servedFromCache = true ∧
      (workerFetch digest now env o req).originCalls = 0) ∨
    ((workerFetch digest now env o req).servedFromCache = false ∧
      (workerFetch digest now env o req).originCalls = 1) := by
  unfold workerFetch
  simp only [h1, h2, Bool.not_true, Bool.false_eq_true, if_false]
  split
  · split
    · split
      · right
        cases o <;> exact ⟨rfl, rfl⟩
      · left
        exact ⟨rfl, rfl⟩
    · right; cases o <;> exact ⟨rfl, rfl⟩
    · right; cases o <;> exact ⟨rfl, rfl⟩
    · right; cases o <;> exact ⟨rfl, rfl⟩
  · right; cases o <;> exact ⟨rfl, rfl⟩

/-- Claim C1, witness: a configured environment on a concrete request. -/
theorem claim1_witness :
    (jsTruthy sampleEnv.ORIGIN_API_URL = true ∧ sampleEnv.bucketBound = true) ∧
    (((workerFetch sampleDigest 0 sampleEnv (.ok rtOrigin) rtReq).servedFromCache = true ∧
        (workerFetch sampleDigest 0 sampleEnv (.ok rtOrigin) rtReq).originCalls = 0) ∨
      ((workerFetch sampleDigest 0 sampleEnv (.ok rtOrigin) rtReq).servedFromCache = false ∧
        (workerFetch sampleDigest 0 sampleEnv (.ok rtOrigin) rtReq).originCalls = 1)) :=
  ⟨⟨rfl, rfl⟩,
    claim1_exactly_one_of_hit_or_forward sampleDigest 0 sampleEnv (.ok rtOrigin) rtReq rfl rfl⟩

/-- Claim C2: a lookup that finds an entry whose expiration instant is
strictly in the past does not serve it — the request proceeds exactly as a
miss (same response, same scheduled put operations, one origin contact)
and a delete of the stale key is scheduled, the only difference from the
plain miss run. -/
theorem claim2_expired_entry_treated_as_miss (digest : List Nat → List Nat)
    (now : Int) (env : WorkerEnv) (o : Except String OriginResponse)
    (req : JsRequest) (exp : Option String) (d : CachedData)
    (res resMiss : FetchResult)
    (h1 : jsTruthy env.ORIGIN_API_URL = true) (h2 : env.bucketBound = true)
    (hbp : ((hget req.headers CACHE_CONTROL_HEADER).map jsToLower == some "no-cache") = false)
    (hm : (req.method == "GET" || req.method == "POST") = true)
    (hstore : env.store (generateCacheKey digest req) = .found exp (some d))
    (hexp : expiredCheck now exp = true)
    (hres : res = workerFetch digest now env o req)
    (hmiss : resMiss = workerFetch digest now
      { env with store := fun k =>
          if k = generateCacheKey digest req then .absent else env.store k } o req) :
    res.servedFromCache = false ∧ res.originCalls = 1 ∧
    res.response = resMiss.response ∧ res.putOps = resMiss.putOps ∧
    res.deletes = [generateCacheKey digest req] ∧ resMiss.deletes = [] := by
  subst hres hmiss
  unfold workerFetch
  simp only [h1, h2, Bool.not_true, Bool.false_eq_true, if_false, hbp, hm,
    Bool.not_false, Bool.and_self, if_true, hstore, hexp, ite_true]
  refine ⟨forward_servedFromCache _ _ _ _ _ _ _ _ _ _,
    forward_originCalls _ _ _ _ _ _ _ _ _ _, ?_, ?_, ?_, ?_⟩
  · exact forward_response_env_irrel _ _ _ _ _ _ _ _ _ _ _ _ _
  · exact forward_putOps_env_irrel _ _ _ _ _ _ _ _ _ _ _ _ _
  · exact forward_deletes _ _ _ _ _ _ _ _ _ _
  · exact forward_deletes _ _ _ _ _ _ _ _ _ _

/-- Claim C2, witness: an entry for the request key that expired at epoch
10 ms, looked up at epoch 1000 ms. -/
theorem claim2_witness :
    expiredCheck 1000 (some "10") = true ∧
    ((workerFetch sampleDigest 1000 wEnvExpired (.ok rtOrigin) rtReq).servedFromCache = false ∧
      (workerFetch sampleDigest 1000 wEnvExpired (.ok rtOrigin) rtReq).originCalls = 1 ∧
      (workerFetch sampleDigest 1000 wEnvExpired (.ok rtOrigin) rtReq).response =
        (workerFetch sampleDigest 1000 wEnvExpiredDel (.ok rtOrigin) rtReq).response ∧
      (workerFetch sampleDigest 1000 wEnvExpired (.ok rtOrigin) rtReq).putOps =
        (workerFetch sampleDigest 1000 wEnvExpiredDel (.ok rtOrigin) rtReq).putOps ∧
      (workerFetch sampleDigest 1000 wEnvExpired (.ok rtOrigin) rtReq).deletes =
        [generateCacheKey sampleDigest rtReq] ∧
      (workerFetch sampleDigest 1000 wEnvExpiredDel (.ok rtOrigin) rtReq).deletes = []) :=
  ⟨rfl,
    claim2_expired_entry_treated_as_miss sampleDigest 1000 wEnvExpired (.ok rtOrigin)
      rtReq (some "10") rtEntry _ _ rfl rfl rfl rfl rfl rfl rfl rfl⟩

/-- Claim C3: round-trip through the store — a run that persists an entry
with status 201, header content-type: text/plain, body "hello" and TTL 60
seconds schedules exactly that put, and a lookup of the same key one
second later serves status 201, that header and body with cache-status
HIT and the cache-key header. -/
theorem claim3_store_roundtrip :
    (workerFetch sampleDigest 0 sampleEnv (.ok rtOrigin) rtReq).putOps =
      [(rtKey, rtEntry, "60000")] ∧
    (workerFetch sampleDigest 1000 rtEnvAfter (.ok rtOrigin) rtReq).servedFromCache = true ∧
    (workerFetch sampleDigest 1000 rtEnvAfter (.ok rtOrigin) rtReq).response.status = 201 ∧
    hget (workerFetch sampleDigest 1000 rtEnvAfter (.ok rtOrigin) rtReq).response.headers
      "content-type" = some "text/plain" ∧
    (workerFetch sampleDigest 1000 rtEnvAfter (.ok rtOrigin) rtReq).response.body = "hello" ∧
    hget (workerFetch sampleDigest 1000 rtEnvAfter (.ok rtOrigin) rtReq).response.headers
      "X-Cache-Status" = some "HIT" ∧
    hget (workerFetch sampleDigest 1000 rtEnvAfter (.ok rtOrigin) rtReq).response.headers
      "X-Cache-Key" = some rtKey :=
  ⟨rfl, rfl, rfl, rfl, rfl, rfl, rfl⟩

/-- Claim C4: an origin response whose Cache-Control value contains
no-store (case-insensitive) is never persisted, whatever the request —
in particular even when it carries the force-cache directive: the force
flag only joins the method-cacheability disjunct, never the negative
no-cache/no-store conjunct. -/
theorem claim4_no_store_never_persisted (digest : List Nat → List Nat)
    (now : Int) (env : WorkerEnv) (req : JsRequest) (resp : OriginResponse)
    (v : String)
    (hcc : hget resp.headers "Cache-Control" = some v)
    (hns : jsIncludes (jsToLower v) "no-store" = true) :
    (workerFetch digest now env (.ok resp) req).putOps = [] := by
  unfold workerFetch
  dsimp only
  split
  · rfl
  · split
    · rfl
    · split
      · split
        · split
          · simp [forwardAndMaybeStore, hcc, hns]
          · rfl
        · simp [forwardAndMaybeStore, hcc, hns]
        · simp [forwardAndMaybeStore, hcc, hns]
        · simp [forwardAndMaybeStore, hcc, hns]
      · simp [forwardAndMaybeStore, hcc, hns]

/-- Claim C4, witness: a no-store origin response and a request carrying
force-cache. -/
theorem claim4_witness :
    hget wRespNoStore.headers "Cache-Control" = some "no-store" ∧
    jsIncludes (jsToLower "no-store") "no-store" = true ∧
    (workerFetch sampleDigest 0 sampleEnv (.ok wRespNoStore) wPostReq).putOps = [] :=
  ⟨rfl, rfl,
    claim4_no_store_never_persisted sampleDigest 0 sampleEnv wPostReq wRespNoStore
      "no-store" rfl rfl⟩

/-- Claim C5: the cache key is a pure function of method, URL, body bytes
and body-read outcome — two requests agreeing on those yield the same key —
and it has the shape METHOD:URL, carrying a :bodyHash= suffix (hash or
sentinel) exactly when the method is POST. -/
theorem claim5_cache_key_deterministic (digest : List Nat → List Nat)
    (r1 r2 : JsRequest)
    (hm : r1.method = r2.method) (hu : r1.url = r2.url) (hb : r1.body = r2.body)
    (he : r1.bodyReadError = r2.bodyReadError) :
    generateCacheKey digest r1 = generateCacheKey digest r2 ∧
    (r1.method = "POST" →
      ∃ h, generateCacheKey digest r1 = r1.method ++ ":" ++ r1.url ++ ":bodyHash=" ++ h) ∧
    (r1.method ≠ "POST" →
      generateCacheKey digest r1 = r1.method ++ ":" ++ r1.url) := by
  refine ⟨?_, ?_, ?_⟩
  · unfold generateCacheKey
    rw [hm, hu, hb, he]
  · intro hp
    unfold generateCacheKey
    rw [hp]
    by_cases hre : r1.bodyReadError
    · rw [hre]
      exact ⟨"readerror",
        (String.append_assoc ("POST" ++ ":" ++ r1.url) ":bodyHash=" "readerror").symm⟩
    · rw [Bool.not_eq_true] at hre
      rw [hre]
      cases hbody : r1.body with
      | none =>
        exact ⟨"emptybody",
          (String.append_assoc ("POST" ++ ":" ++ r1.url) ":bodyHash=" "emptybody").symm⟩
      | some bs =>
        by_cases hlen : bs.length > 0
        · refine ⟨generateHash digest (some bs), ?_⟩
          show (if bs.length > 0 then
                  "POST" ++ ":" ++ r1.url ++ ":bodyHash=" ++ generateHash digest (some bs)
                else "POST" ++ ":" ++ r1.url ++ ":bodyHash=emptybody") =
              "POST" ++ ":" ++ r1.url ++ ":bodyHash=" ++ generateHash digest (some bs)
          rw [if_pos hlen]
        · refine ⟨"emptybody", ?_⟩
          show (if bs.length > 0 then
                  "POST" ++ ":" ++ r1.url ++ ":bodyHash=" ++ generateHash digest (some bs)
                else "POST" ++ ":" ++ r1.url ++ ":bodyHash=emptybody") =
              "POST" ++ ":" ++ r1.url ++ ":bodyHash=" ++ "emptybody"
          rw [if_neg hlen]
          exact (String.append_assoc ("POST" ++ ":" ++ r1.url) ":bodyHash=" "emptybody").symm
  · intro hp
    unfold generateCacheKey
    have h2 : (r1.method == "POST") = false := by
      rw [beq_eq_false_iff_ne]
      exact hp
    rw [h2]
    simp

/-- Claim C5, witness: the same concrete POST request on both sides. -/
theorem claim5_witness :
    wPostReq.method = wPostReq.method ∧ wPostReq.body = wPostReq.body ∧
    (generateCacheKey sampleDigest wPostReq = generateCacheKey sampleDigest wPostReq ∧
      (wPostReq.method = "POST" →
        ∃ h, generateCacheKey sampleDigest wPostReq =
          wPostReq.method ++ ":" ++ wPostReq.url ++ ":bodyHash=" ++ h) ∧
      (wPostReq.method ≠ "POST" →
        generateCacheKey sampleDigest wPostReq = wPostReq.method ++ ":" ++ wPostReq.url)) :=
  ⟨rfl, rfl, claim5_cache_key_deterministic sampleDigest wPostReq wPostReq rfl rfl rfl rfl⟩

/-- Claim C6: a POST whose body is absent or has zero length gets the key
suffix :bodyHash=emptybody, and the hash function itself returns the fixed
sentinel on absent or empty input instead of digesting zero bytes. -/
theorem claim6_empty_body_sentinel (digest : List Nat → List Nat)
    (req : JsRequest)
    (hm : req.method = "POST") (he : req.bodyReadError = false)
    (hb : req.body = none ∨ req.body = some []) :
    generateCacheKey digest req = req.method ++ ":" ++ req.url ++ ":bodyHash=emptybody" ∧
    generateHash digest none = "emptybody" ∧
    generateHash digest (some []) = "emptybody" := by
  refine ⟨?_, rfl, rfl⟩
  unfold generateCacheKey
  rw [hm, he]
  rcases hb with hb | hb <;> rw [hb]
  all_goals rfl

/-- Claim C6, witness: a POST request with an empty body. -/
theorem claim6_witness :
    wEmptyPostReq.method = "POST" ∧ wEmptyPostReq.body = some [] ∧
    (generateCacheKey sampleDigest wEmptyPostReq =
        wEmptyPostReq.method ++ ":" ++ wEmptyPostReq.url ++ ":bodyHash=emptybody" ∧
      generateHash sampleDigest none = "emptybody" ∧
      generateHash sampleDigest (some []) = "emptybody") :=
  ⟨rfl, rfl, claim6_empty_body_sentinel sampleDigest wEmptyPostReq rfl rfl (Or.inr rfl)⟩

/-- Claim C7, counterexample: the claim says the request-side max-age value
is used only when it parses as a positive integer, with everything else
falling back to the response directive or the default; but the source
accepts any nonzero parse result, so max-age=-5 yields a TTL of -5 where
the claim prescribes the default. -/
theorem claim7_counterexample :
    computeTTL (some "max-age=-5") none = -5 ∧
    ttlClaimSpec (some "max-age=-5") none = DEFAULT_CACHE_TTL_SECONDS ∧
    ¬ computeTTL (some "max-age=-5") none = ttlClaimSpec (some "max-age=-5") none := by
  refine ⟨rfl, rfl, ?_⟩
  decide

/-- Claim C7 as amended: the request-side dedicated header decides the TTL
exactly when it starts with max-age= — its parsed value is used whenever
parseInt gives a nonzero number (negative values included) and the default
replaces 0 or NaN; the response Cache-Control max-age (first occurrence
followed by digits) is consulted only when the request-side header is
absent or does not start with max-age=, the default applying otherwise. -/
theorem claim7_amended_ttl (customTtlHeader cacheControl : Option String) :
    computeTTL customTtlHeader cacheControl = ttlAmended customTtlHeader cacheControl := by
  cases customTtlHeader with
  | none => rfl
  | some h =>
    unfold computeTTL ttlAmended
    by_cases hs : jsStartsWith h "max-age="
    · have hne : (h != "") = true := by
        rw [bne_iff_ne]
        intro heq
        rw [heq] at hs
        exact absurd hs (by decide)
      simp only [hs, hne, Bool.and_self, if_true]
      cases hg : (jsSplit h '=').get? 1 with
      | none => rfl
      | some part => rfl
    · rw [Bool.not_eq_true] at hs
      simp [hs]

/-- Claim C8: a request whose dedicated cache-control header is no-cache
is always forwarded to the origin — no store lookup, nothing persisted —
and (when the origin answers) the returned response carries cache-status
MISS, regardless of store contents. -/
theorem claim8_bypass_always_miss (digest : List Nat → List Nat) (now : Int)
    (env : WorkerEnv) (req : JsRequest) (resp : OriginResponse)
    (res : FetchResult)
    (h1 : jsTruthy env.ORIGIN_API_URL = true) (h2 : env.bucketBound = true)
    (hbp : (hget req.headers CACHE_CONTROL_HEADER).map jsToLower = some "no-cache")
    (hres : res = workerFetch digest now env (.ok resp) req) :
    res.servedFromCache = false ∧ res.gets = [] ∧ res.originCalls = 1 ∧
    res.putOps = [] ∧
    hget res.response.headers "X-Cache-Status" = some "MISS" ∧
    res.response.status = resp.status ∧ res.response.body = resp.body := by
  subst hres
  unfold workerFetch
  simp only [h1, h2, Bool.not_true, Bool.false_eq_true, if_false, hbp,
    beq_self_eq_true, Bool.and_self, Bool.false_and, ite_false,
    forwardAndMaybeStore, Bool.and_false]
  simp only [true_and, and_true]
  rw [hget_hset_ne _ _ _ _ (by decide), hget_hset_self]

/-- Claim C8, witness: a bypass request against a store that does hold a
fresh entry for the same key. -/
theorem claim8_witness :
    (hget wBypassReq.headers CACHE_CONTROL_HEADER).map jsToLower = some "no-cache" ∧
    ((workerFetch sampleDigest 1000 rtEnvAfter (.ok rtOrigin) wBypassReq).servedFromCache = false ∧
      (workerFetch sampleDigest 1000 rtEnvAfter (.ok rtOrigin) wBypassReq).gets = [] ∧
      (workerFetch sampleDigest 1000 rtEnvAfter (.ok rtOrigin) wBypassReq).originCalls = 1 ∧
      (workerFetch sampleDigest 1000 rtEnvAfter (.ok rtOrigin) wBypassReq).putOps = [] ∧
      hget (workerFetch sampleDigest 1000 rtEnvAfter (.ok rtOrigin) wBypassReq).response.headers
        "X-Cache-Status" = some "MISS" ∧
      (workerFetch sampleDigest 1000 rtEnvAfter (.ok rtOrigin) wBypassReq).response.status =
        rtOrigin.status ∧
      (workerFetch sampleDigest 1000 rtEnvAfter (.ok rtOrigin) wBypassReq).response.body =
        rtOrigin.body) :=
  ⟨rfl,
    claim8_bypass_always_miss sampleDigest 1000 rtEnvAfter wBypassReq rtOrigin _
      rfl rfl rfl rfl⟩

/-- Claim C9: when the origin fetch throws (connection-level failure) and
the request was not served from cache, the caller receives status 502 with
a body carrying the failure description, and nothing is persisted. -/
theorem claim9_origin_failure_502 (digest : List Nat → List Nat) (now : Int)
    (env : WorkerEnv) (req : JsRequest) (msg : String)
    (h1 : jsTruthy env.ORIGIN_API_URL = true) (h2 : env.bucketBound = true)
    (hnc : (workerFetch digest now env (.error msg) req).servedFromCache = false) :
    (workerFetch digest now env (.error msg) req).response.status = 502 ∧
    (workerFetch digest now env (.error msg) req).response.body =
      "Failed to fetch from origin: " ++ msg ∧
    (workerFetch digest now env (.error msg) req).putOps = [] ∧
    (workerFetch digest now env (.error msg) req).originCalls = 1 := by
  revert hnc
  unfold workerFetch
  simp only [h1, h2, Bool.not_true, Bool.false_eq_true, if_false]
  split
  · split
    · split
      · intro _
        exact ⟨rfl, rfl, rfl, rfl⟩
      · intro h
        exact Bool.noConfusion h
    · intro _
      exact ⟨rfl, rfl, rfl, rfl⟩
    · intro _
      exact ⟨rfl, rfl, rfl, rfl⟩
    · intro _
      exact ⟨rfl, rfl, rfl, rfl⟩
  · intro _
    exact ⟨rfl, rfl, rfl, rfl⟩

/-- Claim C9, witness: an unreachable origin behind an empty store. -/
theorem claim9_witness :
    (workerFetch sampleDigest 0 sampleEnv (.error "boom") rtReq).servedFromCache = false ∧
    ((workerFetch sampleDigest 0 sampleEnv (.error "boom") rtReq).response.status = 502 ∧
      (workerFetch sampleDigest 0 sampleEnv (.error "boom") rtReq).response.body =
        "Failed to fetch from origin: " ++ "boom" ∧
      (workerFetch sampleDigest 0 sampleEnv (.error "boom") rtReq).putOps = [] ∧
      (workerFetch sampleDigest 0 sampleEnv (.error "boom") rtReq).originCalls = 1) :=
  ⟨rfl, claim9_origin_failure_502 sampleDigest 0 sampleEnv rtReq "boom" rfl rfl rfl⟩

/-- Claim C10: a found entry whose expiration metadata is missing or does
not parse to a number is served as a HIT regardless of age and never
deleted; an entry counts as expired exactly when the metadata is a string
whose parseInt value is a number strictly below the current time. -/
theorem claim10_unparseable_expiration_served (digest : List Nat → List Nat)
    (now : Int) (env : WorkerEnv) (o : Except String OriginResponse)
    (req : JsRequest) (exp : Option String) (d : CachedData) (res : FetchResult)
    (h1 : jsTruthy env.ORIGIN_API_URL = true) (h2 : env.bucketBound = true)
    (hbp : ((hget req.headers CACHE_CONTROL_HEADER).map jsToLower == some "no-cache") = false)
    (hm : (req.method == "GET" || req.method == "POST") = true)
    (hstore : env.store (generateCacheKey digest req) = .found exp (some d))
    (hexp : exp = none ∨ ∃ s, exp = some s ∧ jsParseInt s = none)
    (hres : res = workerFetch digest now env o req) :
    res.servedFromCache = true ∧ res.originCalls = 0 ∧ res.deletes = [] ∧
    res.response.body = d.body ∧ res.response.status = d.status ∧
    hget res.response.headers "X-Cache-Status" = some "HIT" ∧
    (∀ (now2 : Int) (e : Option String),
      expiredCheck now2 e = true ↔ ∃ s n, e = some s ∧ jsParseInt s = some n ∧ n < now2) := by
  subst hres
  have hexpF : expiredCheck now exp = false := by
    rcases hexp with h | ⟨s, hs, hp⟩
    · rw [h]
      rfl
    · rw [hs]
      unfold expiredCheck
      dsimp only
      by_cases hse : s = ""
      · rw [if_pos hse]
      · rw [if_neg hse, hp]
  unfold workerFetch
  simp only [h1, h2, Bool.not_true, Bool.false_eq_true, if_false, hbp, hm,
    Bool.not_false, Bool.and_self, if_true, hstore, hexpF, ite_false]
  simp only [true_and, and_true]
  refine ⟨?_, expiredCheck_iff⟩
  rw [hget_hset_ne _ _ _ _ (by decide), hget_hset_self]

/-- Claim C10, witness: a stored entry whose expiration metadata is the
non-numeric string abc, looked up far in the future. -/
theorem claim10_witness :
    wEnvBadExp.store (generateCacheKey sampleDigest rtReq) =
      .found (some "abc") (some rtEntry) ∧
    jsParseInt "abc" = none ∧
    ((workerFetch sampleDigest 99999 wEnvBadExp (.ok rtOrigin) rtReq).servedFromCache = true ∧
      (workerFetch sampleDigest 99999 wEnvBadExp (.ok rtOrigin) rtReq).originCalls = 0 ∧
      (workerFetch sampleDigest 99999 wEnvBadExp (.ok rtOrigin) rtReq).deletes = [] ∧
      (workerFetch sampleDigest 99999 wEnvBadExp (.ok rtOrigin) rtReq).response.body =
        rtEntry.body ∧
      (workerFetch sampleDigest 99999 wEnvBadExp (.ok rtOrigin) rtReq).response.status =
        rtEntry.status ∧
      hget (workerFetch sampleDigest 99999 wEnvBadExp (.ok rtOrigin) rtReq).response.headers
        "X-Cache-Status" = some "HIT" ∧
      (∀ (now2 : Int) (e : Option String),
        expiredCheck now2 e = true ↔ ∃ s n, e = some s ∧ jsParseInt s = some n ∧ n < now2)) :=
  ⟨rfl, rfl,
    claim10_unparseable_expiration_served sampleDigest 99999 wEnvBadExp (.ok rtOrigin)
      rtReq (some "abc") rtEntry _ rfl rfl rfl rfl rfl
      (Or.inr ⟨"abc", rfl, rfl⟩) rfl⟩

end CF
